import Mathlib

/-!
Verification development for the baby-sleep-scheduler prediction engine
(`src/baby_sleep/model.py` and `src/baby_sleep/data.py`).

Times of day are embedded as minutes: a parsed "HH:MM" string is its
minute-of-day value (0 ≤ t < 1440), absolute datetimes reached by adding
`timedelta` offsets are `Int` minutes measured from today's midnight, and
`format_time` (strftime "%H:%M") maps an absolute time back to its
minute-of-day, i.e. reduction modulo 1440.  Dates are Gregorian
year/month/day triples with the calendar successor function standing in
for `date + timedelta(days=1)`.
-/

namespace BabySleep

/-- A calendar date, as produced by `date.fromisoformat` on "YYYY-MM-DD". -/
structure Date where
  year : Nat
  month : Nat
  day : Nat
deriving DecidableEq, Repr

/-- Gregorian leap-year rule used by Python's `datetime.date`. -/
def isLeap (y : Nat) : Bool :=
  y % 4 == 0 && (y % 100 != 0 || y % 400 == 0)

/-- Number of days in a month of a given year. -/
def daysInMonth (y m : Nat) : Nat :=
  if m == 2 then (if isLeap y then 29 else 28)
  else if m == 4 || m == 6 || m == 9 || m == 11 then 30
  else 31

/-- Calendar successor: `date.fromisoformat s + timedelta(days=1)`. -/
def nextDate (d : Date) : Date :=
  if d.day < daysInMonth d.year d.month then ⟨d.year, d.month, d.day + 1⟩
  else if d.month < 12 then ⟨d.year, d.month + 1, 1⟩
  else ⟨d.year + 1, 1, 1⟩

/-- Ordering on dates; on zero-padded ISO strings the Python string sort
used by `sorted(days, key=lambda d: d["date"])` is exactly this
lexicographic comparison of the components. -/
def dateLe (a b : Date) : Bool :=
  decide (a.year < b.year) ||
    (a.year == b.year &&
      (decide (a.month < b.month) ||
        (a.month == b.month && decide (a.day ≤ b.day))))

/-- A stored nap event of a `DailyRecord` (`day["naps"][i]`), with start
and end as parsed minute-of-day values. -/
structure NapRec where
  start : Nat
  end_ : Nat
deriving DecidableEq, Repr

/-- One day record of `data["days"]`.  `morning_wake` and `night_sleep`
are `None`-able "HH:MM" fields, embedded as minute-of-day options. -/
structure DayRecord where
  date : Date
  morning_wake : Option Nat
  naps : List NapRec
  night_sleep : Option Nat
deriving DecidableEq, Repr

/-- The trained model dictionary of `model.py`. -/
structure Model where
  wake_windows : List Int
  nap_durations : List Int
  typical_naps_count : Nat
  night_sleep_window : Int
  night_sleep_duration : Int
  trained_on : Option Date
  days_count : Nat
deriving DecidableEq, Repr

/-- A nap entry of the schedule dictionaries built by `predict` and
`recalculate`: formatted "HH:MM" start and end (minute-of-day values),
`duration_minutes`, and the `predicted` flag. -/
structure Nap where
  start : Nat
  end_ : Nat
  duration_minutes : Int
  predicted : Bool
deriving DecidableEq, Repr

/-- The schedule dictionary returned by `predict` / `recalculate`. -/
structure Schedule where
  wake_time : Nat
  naps : List Nap
  night_sleep : Nat
  night_predicted : Bool
deriving DecidableEq, Repr

/-- A user correction passed to `recalculate`: 1-based `nap_number`, an
actual start, and an optional actual end. -/
structure Correction where
  nap_number : Int
  start : Nat
  end_ : Option Nat
deriving DecidableEq, Repr

/-- The `format_time` on an absolute time: `strftime "%H:%M"` yields the
minute-of-day, i.e. the absolute minutes reduced modulo 1440 (Python's
`datetime` normalises `hour`/`minute` exactly this way). -/
def fmt (t : Int) : Nat :=
  (t % 1440).toNat

/-- Value of `get_default_model()`. -/
def get_default_model : Model :=
  { wake_windows := [150, 165, 180]
    nap_durations := [75, 90, 45]
    typical_naps_count := 3
    night_sleep_window := 120
    night_sleep_duration := 660
    trained_on := none
    days_count := 0 }

/-- Lookup `model["wake_windows"][i] if i < len(model["wake_windows"]) else 180`. -/
def wwAt (m : Model) (i : Nat) : Int :=
  m.wake_windows.getD i 180

/-- Lookup `model["nap_durations"][i] if i < len(model["nap_durations"]) else 60`. -/
def ndAt (m : Model) (i : Nat) : Int :=
  m.nap_durations.getD i 60

/-- The `for i in range(model["typical_naps_count"])` loop of `predict`,
threading `current_time` (absolute minutes).  `i` is the next slot index
and `r` the number of slots still to emit; returns the emitted naps and
the final `current_time`. -/
def predictLoop (m : Model) : Nat → Nat → Int → List Nap × Int
  | _, 0, t => ([], t)
  | i, r + 1, t =>
    let s := t + wwAt m i
    let e := s + ndAt m i
    let rest := predictLoop m (i + 1) r e
    (⟨fmt s, fmt e, ndAt m i, true⟩ :: rest.1, rest.2)

/-- The `predict(wake_time, model)` function of `model.py`.  `wake` is the
parsed wake time (minute-of-day). -/
def predict (wake : Nat) (m : Model) : Schedule :=
  let r := predictLoop m 0 m.typical_naps_count (wake : Int)
  { wake_time := wake
    naps := r.1
    night_sleep := fmt (r.2 + m.night_sleep_window)
    night_predicted := true }

/-- The dictionary `corrections_by_index = {c["nap_number"] - 1: c for c in
corrections}` looked up at slot `i`: comprehension entries overwrite, so
the last correction with that index wins. -/
def lookupCorr (corrs : List Correction) (i : Nat) : Option Correction :=
  (corrs.filter (fun c => c.nap_number - 1 == (i : Int))).getLast?

/-- The main loop of `recalculate`, threading `current_time`.  A corrected
slot with an end re-anchors `current_time` to the parsed end
(`parse_time(nap_end)`); a corrected slot without an end projects the end
from the corrected start; an uncorrected slot behaves as in `predict`. -/
def recalcLoop (m : Model) (corrs : List Correction) : Nat → Nat → Int → List Nap × Int
  | _, 0, t => ([], t)
  | i, r + 1, t =>
    match lookupCorr corrs i with
    | some c =>
      match c.end_ with
      | some e =>
        let d : Int := (e : Int) - (c.start : Int)
        let rest := recalcLoop m corrs (i + 1) r (e : Int)
        (⟨c.start, e, d, false⟩ :: rest.1, rest.2)
      | none =>
        let nd := ndAt m i
        let eAbs := (c.start : Int) + nd
        let rest := recalcLoop m corrs (i + 1) r eAbs
        (⟨c.start, fmt eAbs, nd, true⟩ :: rest.1, rest.2)
    | none =>
      let s := t + wwAt m i
      let e := s + ndAt m i
      let rest := recalcLoop m corrs (i + 1) r e
      (⟨fmt s, fmt e, ndAt m i, true⟩ :: rest.1, rest.2)

/-- The `recalculate(wake_time, corrections, model)` function of `model.py`. -/
def recalculate (wake : Nat) (corrs : List Correction) (m : Model) : Schedule :=
  let r := recalcLoop m corrs 0 m.typical_naps_count (wake : Int)
  { wake_time := wake
    naps := r.1
    night_sleep := fmt (r.2 + m.night_sleep_window)
    night_predicted := true }

/-- Ordering check on a produced schedule, on the returned "HH:MM"
(minute-of-day) values: each nap starts at or after the previous event's
end (the wake time for the first nap), ends strictly after it starts, and
the night-sleep start is at or after the last event's end. -/
def schedOrdered (prev : Nat) (naps : List Nap) (night : Nat) : Bool :=
  match naps with
  | [] => decide (prev ≤ night)
  | n :: rest =>
    decide (prev ≤ n.start) && decide (n.start < n.end_) && schedOrdered n.end_ rest night

/-- Truthiness filter of `get_historical_days`: a record participates in
training only with a morning wake, a nonempty nap list and a night-sleep
value (well-formed "HH:MM" strings are always truthy). -/
def trainable (d : DayRecord) : Bool :=
  d.morning_wake.isSome && !d.naps.isEmpty && d.night_sleep.isSome

/-- The `get_historical_days(data, exclude_today)` function of `data.py`. -/
def get_historical_days (excludeToday : Bool) (today : Date) (days : List DayRecord) :
    List DayRecord :=
  days.filter (fun d => !(excludeToday && d.date == today) && trainable d)

/-- Python's `sorted(days, key=lambda d: d["date"])`: a stable sort by the
ISO date string, i.e. by `dateLe`. -/
def sortDays (days : List DayRecord) : List DayRecord :=
  days.insertionSort (fun a b => dateLe a.date b.date)

/-- Python's `int(np.mean(xs))` on a nonempty list of integer samples: the
exact rational mean truncated toward zero, i.e. `Int.tdiv` of sum by
length.  (On the empty list this yields `0`; `train` never takes the mean
of an empty accumulator.) -/
def pymean (xs : List Int) : Int :=
  Int.tdiv xs.sum (xs.length : Int)

/-- Python's `int(np.median(xs))` on a nonempty list of naturals: middle
element of the sorted list for odd length, else the truncated average of
the two middle elements. -/
def pymedian (xs : List Nat) : Nat :=
  let s := xs.insertionSort (· ≤ ·)
  if xs.length % 2 == 1 then s.getD (xs.length / 2) 0
  else (s.getD (xs.length / 2 - 1) 0 + s.getD (xs.length / 2) 0) / 2

/-- The slot-`i` wake-window sample contributed by one day record: minutes
from the previous event's end (the morning wake for slot 0, else the
previous nap's end) to nap `i`'s start, when the record has a nap `i`.
`time_diff_minutes` is plain minute subtraction and may be negative. -/
def wwSample (d : DayRecord) (i : Nat) : Option Int :=
  match d.naps[i]? with
  | none => none
  | some nap =>
    let prev : Nat :=
      if i = 0 then d.morning_wake.getD 0
      else match d.naps[i - 1]? with
        | some p => p.end_
        | none => 0
    some ((nap.start : Int) - (prev : Int))

/-- The slot-`i` nap-duration sample contributed by one day record. -/
def ndSample (d : DayRecord) (i : Nat) : Option Int :=
  (d.naps[i]?).map (fun nap => (nap.end_ : Int) - (nap.start : Int))

/-- Accumulator `wake_windows_by_nap[i]` after the training loop: one
sample per day (in day order) that has a nap in slot `i`. -/
def wwAcc (days : List DayRecord) (i : Nat) : List Int :=
  days.filterMap (fun d => wwSample d i)

/-- Accumulator `nap_durations_by_nap[i]` after the training loop. -/
def ndAcc (days : List DayRecord) (i : Nat) : List Int :=
  days.filterMap (fun d => ndSample d i)

/-- The `night_windows` list: for each day (in order) with a nonempty nap
list and a night-sleep value, minutes from the last nap's end to the
night-sleep start. -/
def nightWindows (days : List DayRecord) : List Int :=
  days.filterMap (fun d =>
    match d.naps.getLast? with
    | none => none
    | some last =>
      d.night_sleep.map (fun ns => (ns : Int) - (last.end_ : Int)))

/-- The dictionary `days_by_date = {d["date"]: d for d in sorted_days}`
looked up at a date: the last record with that date wins. -/
def lookupByDate (days : List DayRecord) (target : Date) : Option DayRecord :=
  (days.filter (fun d => d.date == target)).getLast?

/-- The `night_durations` list built by the consecutive-day loop of
`train`: for each day (in order) with a night-sleep value whose calendar
successor date is present and has a morning wake, the sample
`(24*60 - night minute-of-day) + next morning wake minute-of-day`. -/
def nightDurations (days : List DayRecord) : List Int :=
  days.filterMap (fun d =>
    match d.night_sleep with
    | none => none
    | some ns =>
      match lookupByDate days (nextDate d.date) with
      | none => none
      | some nd =>
        nd.morning_wake.map (fun w => (1440 : Int) - (ns : Int) + (w : Int)))

/-- The per-slot wake-window loop of `train` (lines 125-129): for each
slot below the typical count, the integer mean of the slot's accumulated
samples when any exist, else the fallback `150 + 15*i`. -/
def slotWakeWindows (acc : Nat → List Int) (typical : Nat) : List Int :=
  (List.range typical).map (fun i =>
    if (acc i).isEmpty then 150 + 15 * (i : Int) else pymean (acc i))

/-- The per-slot nap-duration loop of `train` (lines 131-134): for each
slot below the typical count, the integer mean of the slot's accumulated
samples when any exist, else the fallback `75` for slot 0, `90` for slot
1, and `45` for any later slot. -/
def slotNapDurations (acc : Nat → List Int) (typical : Nat) : List Int :=
  (List.range typical).map (fun i =>
    if (acc i).isEmpty then (if i = 0 then 75 else if i = 1 then 90 else 45)
    else pymean (acc i))

/-- The `train(data)` function of `model.py`.  `today` is the ambient
`date.today()` and `days0` the stored `data["days"]` list; the persisted
side effect (`save_model`) is outside the embedded value semantics. -/
def train (today : Date) (days0 : List DayRecord) : Model :=
  let days := get_historical_days true today days0
  if days.isEmpty then
    { get_default_model with trained_on := some today }
  else
    let sorted := sortDays days
    let active := sorted.filter (fun d => !d.naps.isEmpty)
    let counts := active.map (fun d => d.naps.length)
    let typical := if counts.isEmpty then 3 else pymedian counts
    let nwin := nightWindows sorted
    let ndur := nightDurations sorted
    { wake_windows := slotWakeWindows (wwAcc active) typical
      nap_durations := slotNapDurations (ndAcc active) typical
      typical_naps_count := typical
      night_sleep_window := if nwin.isEmpty then 120 else pymean nwin
      night_sleep_duration := if ndur.isEmpty then 660 else pymean ndur
      trained_on := some today
      days_count := days.length }

lemma fmt_of_lt {t : Int} (h0 : 0 ≤ t) (h1 : t < 1440) : (fmt t : Int) = t := by
  unfold fmt
  rw [Int.emod_eq_of_lt h0 h1]
  exact Int.toNat_of_nonneg h0

lemma predictLoop_length (m : Model) :
    ∀ (r i : Nat) (t : Int), (predictLoop m i r t).1.length = r := by
  intro r
  induction r with
  | zero => intro i t; rfl
  | succ r ih =>
    intro i t
    simp [predictLoop, ih]

lemma predictLoop_le_final (m : Model) :
    ∀ (r i : Nat) (t : Int),
      (∀ k, k < r → 0 ≤ wwAt m (i + k) ∧ 0 < ndAt m (i + k)) →
      t ≤ (predictLoop m i r t).2 := by
  intro r
  induction r with
  | zero => intro i t _; exact le_refl t
  | succ r ih =>
    intro i t hk
    have h0 := hk 0 (Nat.succ_pos r)
    rw [Nat.add_zero] at h0
    have hrec := ih (i + 1) (t + wwAt m i + ndAt m i) (fun k hkr => by
      have := hk (k + 1) (Nat.succ_lt_succ hkr)
      simpa [Nat.add_assoc, Nat.add_comm 1 k] using this)
    simp only [predictLoop]
    refine le_trans ?_ hrec
    have := h0.1
    have := h0.2
    omega

lemma predictLoop_ordered (m : Model) (extra : Int) (hextra : 0 ≤ extra) :
    ∀ (r i : Nat) (t : Int), 0 ≤ t →
      (∀ k, k < r → 0 ≤ wwAt m (i + k) ∧ 0 < ndAt m (i + k)) →
      (predictLoop m i r t).2 + extra < 1440 →
      schedOrdered (fmt t) (predictLoop m i r t).1
        (fmt ((predictLoop m i r t).2 + extra)) = true := by
  intro r
  induction r with
  | zero =>
    intro i t ht hk hbound
    have htlt : t < 1440 := by
      have : t ≤ (predictLoop m i 0 t).2 := le_refl t
      simp only [predictLoop] at hbound
      omega
    simp only [predictLoop, schedOrdered, decide_eq_true_eq]
    have h1 := fmt_of_lt ht htlt
    have h2 := fmt_of_lt (by omega : (0:Int) ≤ t + extra) (by
      simpa [predictLoop] using hbound)
    omega
  | succ r ih =>
    intro i t ht hk hbound
    have h0 := hk 0 (Nat.succ_pos r)
    rw [Nat.add_zero] at h0
    have hw := h0.1
    have hd := h0.2
    have hks : ∀ k, k < r → 0 ≤ wwAt m (i + 1 + k) ∧ 0 < ndAt m (i + 1 + k) := by
      intro k hkr
      have := hk (k + 1) (Nat.succ_lt_succ hkr)
      simpa [Nat.add_assoc, Nat.add_comm 1 k] using this
    have hefin : t + wwAt m i + ndAt m i ≤
        (predictLoop m (i + 1) r (t + wwAt m i + ndAt m i)).2 :=
      predictLoop_le_final m r (i + 1) _ hks
    have hbound2 : (predictLoop m (i + 1) r (t + wwAt m i + ndAt m i)).2 + extra < 1440 := by
      simpa [predictLoop] using hbound
    have h1 := fmt_of_lt ht (by omega)
    have h2 := fmt_of_lt (show (0 : Int) ≤ t + wwAt m i by omega) (by omega)
    have h3 := fmt_of_lt (show (0 : Int) ≤ t + wwAt m i + ndAt m i by omega) (by omega)
    have hrec := ih (i + 1) (t + wwAt m i + ndAt m i) (by omega) hks hbound2
    simp only [predictLoop, schedOrdered, Bool.and_eq_true, decide_eq_true_eq]
    exact ⟨⟨by omega, by omega⟩, hrec⟩

/-- C1: `predict` always returns exactly `typical_naps_count` naps.  The
claimed HH:MM orderings (each nap ends after it starts, starts at or
after the previous event's end, night start at or after the last nap's
end) hold for a valid wake time whenever the wake windows used are
nonnegative, the nap durations used are positive, the night window is
nonnegative, and the schedule does not wrap past midnight; the original
unconditional claim is refuted by `C1_counterexample`. -/
theorem C1_predict_monotonicity (m : Model) (wake : Nat) :
    (predict wake m).naps.length = m.typical_naps_count ∧
    (wake < 1440 →
      (∀ i, i < m.typical_naps_count → 0 ≤ wwAt m i ∧ 0 < ndAt m i) →
      0 ≤ m.night_sleep_window →
      (predictLoop m 0 m.typical_naps_count (wake : Int)).2 + m.night_sleep_window < 1440 →
      schedOrdered wake (predict wake m).naps (predict wake m).night_sleep = true) := by
  constructor
  · exact predictLoop_length m m.typical_naps_count 0 (wake : Int)
  · intro hwake hslots hnight hbound
    have hw0 : (0 : Int) ≤ (wake : Int) := Int.ofNat_nonneg wake
    have h := predictLoop_ordered m m.night_sleep_window hnight
      m.typical_naps_count 0 (wake : Int) hw0 (fun k hkr => by simpa using hslots k hkr) hbound
    have hfw : fmt (wake : Int) = wake := by
      have := fmt_of_lt hw0 (by exact_mod_cast hwake)
      omega
    rw [hfw] at h
    exact h

/-- C1 counterexample: with the default model and wake time "23:00"
(minute 1380) the schedule wraps past midnight, so the first nap's
formatted start "01:30" (minute 90) is strictly before the wake time on
HH:MM values, refuting the claimed unconditional ordering. -/
theorem C1_counterexample :
    (predict 1380 get_default_model).naps.length = 3 ∧
    (predict 1380 get_default_model).naps.map (fun n => n.start) = [90, 330, 600] ∧
    schedOrdered 1380 (predict 1380 get_default_model).naps
      (predict 1380 get_default_model).night_sleep = false := by
  decide

/-- Witness for `C1_predict_monotonicity` at the default model and wake
time "07:00". -/
theorem C1_witness :
    (predict 420 get_default_model).naps.length = get_default_model.typical_naps_count ∧
    schedOrdered 420 (predict 420 get_default_model).naps
      (predict 420 get_default_model).night_sleep = true := by
  refine ⟨(C1_predict_monotonicity get_default_model 420).1, ?_⟩
  exact (C1_predict_monotonicity get_default_model 420).2 (by decide)
    (by decide) (by decide) (by decide)

lemma lookupCorr_nil (i : Nat) : lookupCorr [] i = none := rfl

lemma recalcLoop_nil (m : Model) :
    ∀ (r i : Nat) (t : Int), recalcLoop m [] i r t = predictLoop m i r t := by
  intro r
  induction r with
  | zero => intro i t; rfl
  | succ r ih =>
    intro i t
    simp [recalcLoop, predictLoop, lookupCorr_nil, ih]

/-- C10: `recalculate` with an empty correction list returns, field for
field, the same schedule as `predict` with the same wake time and model. -/
theorem C10_recalculate_empty_eq_predict (wake : Nat) (m : Model) :
    recalculate wake [] m = predict wake m := by
  simp [recalculate, predict, recalcLoop_nil]

/-- C2: with `typical_naps_count = 3`, wake "07:00" (420) and the single
correction for nap 2 with start "11:00" (660) and end "12:30" (750),
`recalculate` returns the second nap with exactly the corrected times,
duration 90 and `predicted = false`, and the first and third naps
model-derived with `predicted = true`, the third nap's start being the
corrected end 750 plus the model's slot-2 wake window. -/
theorem C2_correction_override (m : Model) (hc : m.typical_naps_count = 3) :
    recalculate 420 [⟨2, 660, some 750⟩] m =
      { wake_time := 420
        naps := [⟨fmt (420 + wwAt m 0), fmt (420 + wwAt m 0 + ndAt m 0), ndAt m 0, true⟩,
                 ⟨660, 750, 90, false⟩,
                 ⟨fmt (750 + wwAt m 2), fmt (750 + wwAt m 2 + ndAt m 2), ndAt m 2, true⟩]
        night_sleep := fmt (750 + wwAt m 2 + ndAt m 2 + m.night_sleep_window)
        night_predicted := true } := by
  simp only [recalculate, hc]
  have l0 : lookupCorr [(⟨2, 660, some 750⟩ : Correction)] 0 = none := by decide
  have l1 : lookupCorr [(⟨2, 660, some 750⟩ : Correction)] 1 = some ⟨2, 660, some 750⟩ := by
    decide
  have l2 : lookupCorr [(⟨2, 660, some 750⟩ : Correction)] 2 = none := by decide
  simp only [recalcLoop, l0, l1, l2]
  norm_num

/-- Witness for `C2_correction_override` at the default model. -/
theorem C2_witness :
    recalculate 420 [⟨2, 660, some 750⟩] get_default_model =
      { wake_time := 420
        naps := [⟨570, 645, 75, true⟩, ⟨660, 750, 90, false⟩, ⟨930, 975, 45, true⟩]
        night_sleep := 1095
        night_predicted := true } :=
  (C2_correction_override get_default_model rfl).trans (by decide)

lemma recalcLoop_corrected_noend (m : Model) (corrs : List Correction) (c : Correction)
    (he : c.end_ = none) :
    ∀ (r i j : Nat) (t : Int), j < r → lookupCorr corrs (i + j) = some c →
      ((recalcLoop m corrs i r t).1)[j]? =
        some ⟨c.start, fmt ((c.start : Int) + ndAt m (i + j)), ndAt m (i + j), true⟩ := by
  intro r
  induction r with
  | zero => intro i j t hj; omega
  | succ r ih =>
    intro i j t hj hl
    match j with
    | 0 =>
      rw [Nat.add_zero] at hl
      simp [recalcLoop, hl, he]
    | j + 1 =>
      have hl2 : lookupCorr corrs (i + 1 + j) = some c := by
        rw [show i + 1 + j = i + (j + 1) by omega]
        exact hl
      have hj2 : j < r := by omega
      have goal2 := fun t2 => ih (i + 1) j t2 hj2 hl2
      rw [show i + (j + 1) = i + 1 + j by omega]
      cases hcase : lookupCorr corrs i with
      | some c2 =>
        cases hc2 : c2.end_ with
        | some e2 =>
          simp only [recalcLoop, hcase, hc2]
          simpa using goal2 (e2 : Int)
        | none =>
          simp only [recalcLoop, hcase, hc2]
          simpa using goal2 ((c2.start : Int) + ndAt m i)
      | none =>
        simp only [recalcLoop, hcase]
        simpa using goal2 (t + wwAt m i + ndAt m i)

/-- C6: a correction in effect for an in-range slot `i` that supplies a
start but no end yields that slot's nap with exactly the corrected start,
end projected as the corrected start plus the model's slot-`i` nap
duration (`ndAt` falls back to 60 past the list), and `predicted = true`. -/
theorem C6_partial_correction (m : Model) (wake : Nat) (corrs : List Correction)
    (c : Correction) (i : Nat) (hi : i < m.typical_naps_count)
    (hl : lookupCorr corrs i = some c) (he : c.end_ = none) :
    ((recalculate wake corrs m).naps)[i]? =
      some ⟨c.start, fmt ((c.start : Int) + ndAt m i), ndAt m i, true⟩ := by
  have h := recalcLoop_corrected_noend m corrs c he m.typical_naps_count 0 i (wake : Int) hi
    (by simpa using hl)
  simpa [recalculate] using h

/-- Witness for `C6_partial_correction`: default model, wake "07:00", a
start-only correction for nap 1 at "10:00" (600); the nap is returned
with start 600, projected end 675 and `predicted = true`. -/
theorem C6_witness :
    ((recalculate 420 [⟨1, 600, none⟩] get_default_model).naps)[0]? =
      some ⟨600, 675, 75, true⟩ := by
  have h := C6_partial_correction get_default_model 420 [⟨1, 600, none⟩] ⟨1, 600, none⟩ 0
    (by decide) (by decide) rfl
  simpa using h

lemma recalcLoop_ext (m : Model) (corrs corrs2 : List Correction) :
    ∀ (r i : Nat) (t : Int),
      (∀ k, k < r → lookupCorr corrs (i + k) = lookupCorr corrs2 (i + k)) →
      recalcLoop m corrs i r t = recalcLoop m corrs2 i r t := by
  intro r
  induction r with
  | zero => intro i t _; rfl
  | succ r ih =>
    intro i t hk
    have h0 := hk 0 (Nat.succ_pos r)
    rw [Nat.add_zero] at h0
    have hks : ∀ k, k < r → lookupCorr corrs (i + 1 + k) = lookupCorr corrs2 (i + 1 + k) := by
      intro k hkr
      have := hk (k + 1) (Nat.succ_lt_succ hkr)
      rw [show i + 1 + k = i + (k + 1) by omega]
      exact this
    cases hcase : lookupCorr corrs i with
    | some c =>
      have h02 : lookupCorr corrs2 i = some c := h0 ▸ hcase
      cases hc2 : c.end_ with
      | some e2 => simp only [recalcLoop, hcase, h02, hc2, ih (i + 1) (e2 : Int) hks]
      | none =>
        simp only [recalcLoop, hcase, h02, hc2, ih (i + 1) ((c.start : Int) + ndAt m i) hks]
    | none =>
      have h02 : lookupCorr corrs2 i = none := h0 ▸ hcase
      simp only [recalcLoop, hcase, h02, ih (i + 1) (t + wwAt m i + ndAt m i) hks]

lemma lookupCorr_append_single (corrs : List Correction) (c : Correction) (i : Nat)
    (h : c.nap_number - 1 ≠ (i : Int)) :
    lookupCorr (corrs ++ [c]) i = lookupCorr corrs i := by
  unfold lookupCorr
  rw [List.filter_append]
  have hb : (c.nap_number - 1 == (i : Int)) = false := by
    simpa using h
  have : List.filter (fun x => x.nap_number - 1 == (i : Int)) [c] = [] := by
    simp [List.filter, hb]
  rw [this, List.append_nil]

/-- C7: appending a correction whose 0-based slot index `nap_number - 1`
falls outside `0 .. typical_naps_count - 1` leaves the result of
`recalculate` unchanged; the out-of-range correction is silently ignored
(the embedding is total, so no error can be raised). -/
theorem C7_out_of_range_ignored (m : Model) (wake : Nat) (corrs : List Correction)
    (c : Correction)
    (h : c.nap_number - 1 < 0 ∨ (m.typical_naps_count : Int) ≤ c.nap_number - 1) :
    recalculate wake (corrs ++ [c]) m = recalculate wake corrs m := by
  have hext : recalcLoop m (corrs ++ [c]) 0 m.typical_naps_count (wake : Int) =
      recalcLoop m corrs 0 m.typical_naps_count (wake : Int) := by
    apply recalcLoop_ext
    intro k hk
    apply lookupCorr_append_single
    intro heq
    rcases h with h1 | h1 <;> omega
  simp [recalculate, hext]

/-- Witness for `C7_out_of_range_ignored`: appending a correction for nap
5 to a 3-slot model changes nothing. -/
theorem C7_witness :
    recalculate 420 ([⟨2, 660, some 750⟩] ++ [⟨5, 100, none⟩]) get_default_model =
      recalculate 420 [⟨2, 660, some 750⟩] get_default_model :=
  C7_out_of_range_ignored get_default_model 420 [⟨2, 660, some 750⟩] ⟨5, 100, none⟩
    (Or.inr (by decide))

/-- C5: when the input holds no trainable record, `train` returns exactly
the default model (wake windows `[150,165,180]`, nap durations
`[75,90,45]`, typical naps 3, night window 120, night duration 660,
`days_count = 0`) stamped with today's date. -/
theorem C5_default_on_no_trainable (today : Date) (days : List DayRecord)
    (h : ∀ d ∈ days, trainable d = false) :
    train today days =
      { wake_windows := [150, 165, 180]
        nap_durations := [75, 90, 45]
        typical_naps_count := 3
        night_sleep_window := 120
        night_sleep_duration := 660
        trained_on := some today
        days_count := 0 } := by
  have hnil : get_historical_days true today days = [] := by
    rw [get_historical_days, List.filter_eq_nil_iff]
    intro d hd
    simp [h d hd]
  simp [train, hnil, get_default_model]

/-- Witness for `C5_default_on_no_trainable` on a record missing its
morning wake. -/
theorem C5_witness :
    train ⟨2025, 6, 1⟩ [⟨⟨2025, 1, 1⟩, none, [⟨540, 600⟩], some 1200⟩] =
      { wake_windows := [150, 165, 180]
        nap_durations := [75, 90, 45]
        typical_naps_count := 3
        night_sleep_window := 120
        night_sleep_duration := 660
        trained_on := some ⟨2025, 6, 1⟩
        days_count := 0 } :=
  C5_default_on_no_trainable ⟨2025, 6, 1⟩ [⟨⟨2025, 1, 1⟩, none, [⟨540, 600⟩], some 1200⟩]
    (by decide)

/-- C9: every model produced by `train` — from the default branch or from
trainable records — has `wake_windows` and `nap_durations` lists whose
lengths both equal `typical_naps_count`. -/
theorem C9_model_lengths (today : Date) (days : List DayRecord) :
    (train today days).wake_windows.length = (train today days).typical_naps_count ∧
    (train today days).nap_durations.length = (train today days).typical_naps_count := by
  rw [train]
  split
  · exact ⟨rfl, rfl⟩
  · simp [slotWakeWindows, slotNapDurations]

/-- C3 counterexample: with empty accumulators the per-slot loop of
`train` produces nap-duration fallback 45 for slot 2, not the claimed 60. -/
theorem C3_counterexample :
    slotNapDurations (fun _ => []) 3 = [75, 90, 45] ∧
    (slotNapDurations (fun _ => []) 3)[2]? ≠ some 60 := by
  decide

/-- C3 as amended: for each slot `i` below the typical count, an empty
wake-window accumulator yields the fallback `150 + 15*i` and an empty
nap-duration accumulator yields `75` for slot 0, `90` for slot 1 and `45`
(not 60) for any later slot; nonempty accumulators yield the integer mean
`pymean` of the samples. -/
theorem C3_slot_fallbacks_and_means (accW accD : Nat → List Int) (typical i : Nat)
    (hi : i < typical) :
    ((accW i).isEmpty = true →
      (slotWakeWindows accW typical)[i]? = some (150 + 15 * (i : Int))) ∧
    ((accW i).isEmpty = false →
      (slotWakeWindows accW typical)[i]? = some (pymean (accW i))) ∧
    ((accD i).isEmpty = true →
      (slotNapDurations accD typical)[i]? =
        some (if i = 0 then 75 else if i = 1 then 90 else 45)) ∧
    ((accD i).isEmpty = false →
      (slotNapDurations accD typical)[i]? = some (pymean (accD i))) := by
  have hw : (slotWakeWindows accW typical)[i]? =
      some (if (accW i).isEmpty then 150 + 15 * (i : Int) else pymean (accW i)) := by
    rw [slotWakeWindows, List.getElem?_map, List.getElem?_range hi]
    rfl
  have hd : (slotNapDurations accD typical)[i]? =
      some (if (accD i).isEmpty then (if i = 0 then 75 else if i = 1 then 90 else 45)
            else pymean (accD i)) := by
    rw [slotNapDurations, List.getElem?_map, List.getElem?_range hi]
    rfl
  refine ⟨fun h => ?_, fun h => ?_, fun h => ?_, fun h => ?_⟩ <;>
    simp [hw, hd, h]

/-- Witness for `C3_slot_fallbacks_and_means` at slot 2 of 3, with an
empty wake-window accumulator and a two-sample duration accumulator. -/
theorem C3_witness :
    (slotWakeWindows (fun _ => []) 3)[2]? = some 180 ∧
    (slotNapDurations (fun _ => [100, 101]) 3)[2]? = some 100 := by
  have h := C3_slot_fallbacks_and_means (fun _ => []) (fun _ => [100, 101]) 3 2 (by decide)
  refine ⟨?_, ?_⟩
  · have := h.1 rfl
    norm_num at this
    simpa using this
  · have := h.2.2.2 rfl
    have hpm : pymean [100, 101] = 100 := by decide
    simpa [hpm] using this

/-- C4: whenever a record has a night-sleep time and the record found for
its calendar-successor date has a morning wake, the night-duration sample
`(24*60 - night minute-of-day) + wake minute-of-day` is accumulated; in
particular the adjacent pair 2025-01-01 (night "20:00") / 2025-01-02
(wake "07:00") yields exactly the sample 660, while the non-adjacent pair
2025-01-01 / 2025-01-03 contributes no sample. -/
theorem C4_night_duration_pairing :
    (∀ (days : List DayRecord) (d nd : DayRecord) (ns w : Nat),
      d ∈ days → d.night_sleep = some ns →
      lookupByDate days (nextDate d.date) = some nd → nd.morning_wake = some w →
      ((1440 : Int) - (ns : Int) + (w : Int)) ∈ nightDurations days) ∧
    nightDurations
      [⟨⟨2025, 1, 1⟩, some 420, [⟨540, 600⟩], some 1200⟩,
       ⟨⟨2025, 1, 2⟩, some 420, [⟨540, 600⟩], some 1230⟩] = [660] ∧
    nightDurations
      [⟨⟨2025, 1, 1⟩, some 420, [⟨540, 600⟩], some 1200⟩,
       ⟨⟨2025, 1, 3⟩, some 420, [⟨540, 600⟩], some 1230⟩] = [] := by
  refine ⟨?_, by decide, by decide⟩
  intro days d nd ns w hd hns hlook hw
  rw [nightDurations, List.mem_filterMap]
  refine ⟨d, hd, ?_⟩
  simp [hns, hlook, hw]

/-- Witness for the universally quantified part of
`C4_night_duration_pairing`, instantiated at the adjacent pair. -/
theorem C4_witness :
    ((1440 : Int) - (1200 : Nat) + (420 : Nat)) ∈ nightDurations
      [⟨⟨2025, 1, 1⟩, some 420, [⟨540, 600⟩], some 1200⟩,
       ⟨⟨2025, 1, 2⟩, some 420, [⟨540, 600⟩], some 1230⟩] :=
  C4_night_duration_pairing.1
    [⟨⟨2025, 1, 1⟩, some 420, [⟨540, 600⟩], some 1200⟩,
     ⟨⟨2025, 1, 2⟩, some 420, [⟨540, 600⟩], some 1230⟩]
    ⟨⟨2025, 1, 1⟩, some 420, [⟨540, 600⟩], some 1200⟩
    ⟨⟨2025, 1, 2⟩, some 420, [⟨540, 600⟩], some 1230⟩
    1200 420 (by decide) rfl (by decide) rfl

lemma pymean_trunc (xs : List Int) (h : xs ≠ []) :
    pymean xs =
      if 0 ≤ xs.sum then ⌊(xs.sum : ℚ) / (xs.length : ℚ)⌋
      else ⌈(xs.sum : ℚ) / (xs.length : ℚ)⌉ := by
  have hn : 0 < xs.length := List.length_pos.mpr h
  rw [pymean]
  by_cases ha : 0 ≤ xs.sum
  · rw [if_pos ha, Int.tdiv_eq_ediv ha (Int.ofNat_nonneg xs.length),
      Rat.floor_intCast_div_natCast xs.sum xs.length]
  · rw [if_neg ha]
    have h2 : xs.sum.tdiv (xs.length : Int) = -((-xs.sum).tdiv (xs.length : Int)) := by
      rw [Int.neg_tdiv, neg_neg]
    rw [h2, Int.tdiv_eq_ediv (by omega) (Int.ofNat_nonneg xs.length),
      ← Rat.floor_intCast_div_natCast (-xs.sum) xs.length]
    have hcast : ((-xs.sum : Int) : ℚ) / (xs.length : ℚ) = -((xs.sum : ℚ) / (xs.length : ℚ)) := by
      push_cast
      ring
    rw [hcast, Int.floor_neg, neg_neg]

/-- C8: the trained statistics are integer-minute means truncated toward
zero.  Two records whose slot-0 wake windows are 150 and 160 minutes
train to a slot-0 wake window of exactly 155, `pymean [150,160] = 155`,
and in general `pymean` (used by `train` for every per-slot mean, the
night-window mean and the night-duration mean) is the exact rational mean
truncated toward zero (floor for a nonnegative sum, ceiling for a
negative one). -/
theorem C8_integer_means :
    (train ⟨2025, 6, 1⟩
      [⟨⟨2025, 1, 1⟩, some 420, [⟨570, 660⟩], some 1200⟩,
       ⟨⟨2025, 1, 3⟩, some 420, [⟨580, 640⟩], some 1200⟩]).wake_windows = [155] ∧
    pymean [150, 160] = 155 ∧
    ∀ xs : List Int, xs ≠ [] →
      pymean xs =
        if 0 ≤ xs.sum then ⌊(xs.sum : ℚ) / (xs.length : ℚ)⌋
        else ⌈(xs.sum : ℚ) / (xs.length : ℚ)⌉ :=
  ⟨by decide, by decide, pymean_trunc⟩

/-- Witness for the universally quantified part of `C8_integer_means` at
a negative-sum sample list: `int(np.mean([-3,-4]))` is `-3`, the ceiling
of `-3.5`. -/
theorem C8_witness :
    pymean [(-3 : Int), -4] =
      (if 0 ≤ ([(-3 : Int), -4].sum) then
        ⌊(([(-3 : Int), -4].sum : ℚ)) / (([(-3 : Int), -4].length : ℚ))⌋
      else ⌈(([(-3 : Int), -4].sum : ℚ)) / (([(-3 : Int), -4].length : ℚ))⌉) :=
  C8_integer_means.2.2 [(-3 : Int), -4] (by decide)

end BabySleep
